import Mathlib

/-!
Verification of the Aroma-Link cloud-device bridge
(`custom_components/aroma_link/aroma_link_api.py`).

Shallow embedding of the per-device WebSocket session state machine:
the duty-cycle state record, the inbound message handler with its
clock-skew correction, the re-poll (SUPERCOMMAND) monitor, the countdown
monitor, the reconnect/backoff supervisor, and the schedule fetch/set
orchestrator.  Times are modelled with `ℚ` (Python floats / millisecond
timestamps with exact division); JSON dictionary fields that may be
missing are modelled with `Option`.
-/

namespace AromaLink

/-- Duty-cycle phase; the source stores the strings `"work"` / `"pause"`
in `state["current_phase"]` (`None` before the first confirmation). -/
inductive Phase
  | work
  | pause
  deriving DecidableEq

/-- Internal schedule-block dictionary.  Keys that are present on some
construction paths and absent on others (`consistency_level`, `week_day`,
`days`) are modelled with `Option` (`none` = key absent). -/
structure ScheduleBlock where
  start_time : String
  end_time : String
  work_duration : Int
  pause_duration : Int
  enabled : Bool
  consistency_level : Option Int
  week_day : Option Int
  days : Option (List Int)
  deriving DecidableEq

/-- The disabled filler block built in `_init_device_state`
(lines 273-282): `00:00`-`00:00`, work=10, pause=120, disabled,
`days` present and empty, no `consistency_level` / `week_day` keys. -/
def initBlock : ScheduleBlock :=
  { start_time := "00:00", end_time := "00:00",
    work_duration := 10, pause_duration := 120,
    enabled := false, consistency_level := none,
    week_day := none, days := some [] }

/-- Per-device `DutyCycleState` dictionary (`self._device_state[device_id]`).
`schedule_fetched` is read with a `False` default before it is first set,
so it is modelled as a plain `Bool` starting `false`. -/
structure DeviceState where
  current_phase : Option Phase
  work_remain_time : ℚ
  pause_remain_time : ℚ
  work_time : Int
  pause_time : Int
  waiting_for_response : Bool
  last_update_time : ℚ
  schedule_blocks : List ScheduleBlock
  schedule_fetched : Bool
  deriving DecidableEq

/-- `_init_device_state` (lines 261-283): the fresh state stored for a
device, with 5 disabled filler schedule blocks. -/
def initDeviceState (now : ℚ) : DeviceState :=
  { current_phase := none,
    work_remain_time := 0,
    pause_remain_time := 0,
    work_time := 0,
    pause_time := 0,
    waiting_for_response := false,
    last_update_time := now,
    schedule_blocks := List.replicate 5 initBlock,
    schedule_fetched := false }

/-- Decoded SUPERCOMMAND state-confirmation message.  `sendTime` lives on
the outer message dict, the rest inside its `data` dict; every field read
with `.get` is an `Option`. -/
structure SuperMsg where
  deviceId : String
  workRemainTime : Option Int
  pauseRemainTime : Option Int
  workTime : Option Int
  pauseTime : Option Int
  workStatus : Option Int
  updateTime : Option Int
  sendTime : Option Int
  deriving DecidableEq

/-- Python truthiness of an optional integer timestamp, as used by
`if send_time_ms and update_time_ms:` (line 475): a missing key and a
zero value are both falsy. -/
def tsTruthy : Option Int → Bool
  | some t => t != 0
  | none => false

/-- `total_elapsed_sec` computation of `_handle_message` (lines 469-507):
`state_age = sendTime - updateTime`, `network_delay = receive_ms - sendTime`;
zero correction when a timestamp is falsy, the delay is negative, or the
delay exceeds 5000 ms; otherwise `(state_age + network_delay) / 1000`. -/
def totalElapsedSec (sendTime updateTime : Option Int) (receive_ms : ℚ) : ℚ :=
  match sendTime, updateTime with
  | some s, some u =>
    if s ≠ 0 ∧ u ≠ 0 then
      let state_age : ℚ := (s : ℚ) - (u : ℚ)
      let delay : ℚ := receive_ms - (s : ℚ)
      if delay < 0 then 0
      else if 5000 < delay then 0
      else (state_age + delay) / 1000
    else 0
  | _, _ => 0

/-- SUPERCOMMAND branch of `_handle_message` (lines 459-529).  `now` is the
local wall clock in seconds (`time.time()`); the source samples
`receive_time_ms = time.time() * 1000`.  Messages whose `deviceId` does not
match the session's device leave the state unchanged. -/
def handle_supercommand (device_id : String) (msg : SuperMsg) (now : ℚ)
    (st : DeviceState) : DeviceState :=
  if msg.deviceId = device_id then
    let work_remain_raw : Int := msg.workRemainTime.getD 0
    let pause_remain_raw : Int := msg.pauseRemainTime.getD 0
    let receive_ms : ℚ := now * 1000
    let elapsed : ℚ := totalElapsedSec msg.sendTime msg.updateTime receive_ms
    { st with
      last_update_time := now,
      work_time := msg.workTime.getD 0,
      pause_time := msg.pauseTime.getD 0,
      work_remain_time := max 0 ((work_remain_raw : ℚ) - elapsed),
      pause_remain_time := max 0 ((pause_remain_raw : ℚ) - elapsed),
      current_phase := some (if msg.workStatus = some 1 then Phase.work else Phase.pause),
      waiting_for_response := false }
  else st

/-- One block of an inbound `WORK_TIME_FREQUENCY` reply, with the wire
field names; all keys read with `.get` defaults. -/
structure WireBlock where
  startHour : Option String
  endHour : Option String
  workSec : Option Int
  pauseSec : Option Int
  enabled : Option Int
  consistenceLevel : Option Int
  weekDay : Option Int
  deriving DecidableEq

/-- Parsing of one wire block in `_handle_message` (lines 438-446); note
the parsed dict has `consistency_level` and `week_day` keys but no
`days` key. -/
def parseWireBlock (b : WireBlock) : ScheduleBlock :=
  { start_time := b.startHour.getD "00:00",
    end_time := b.endHour.getD "00:00",
    work_duration := b.workSec.getD 10,
    pause_duration := b.pauseSec.getD 120,
    enabled := b.enabled.getD 0 == 1,
    consistency_level := some (b.consistenceLevel.getD 1),
    week_day := some (b.weekDay.getD 0),
    days := none }

/-- `WORK_TIME_FREQUENCY` branch of `_handle_message` (lines 428-457):
the device's `schedule_blocks` are replaced wholesale by the parsed list
and `schedule_fetched` is set. -/
def handle_work_time_frequency (blocks : List WireBlock) (st : DeviceState) :
    DeviceState :=
  { st with schedule_blocks := blocks.map parseWireBlock,
            schedule_fetched := true }

/-- Decoded inbound WebSocket frame after the JSON passes of
`_handle_message`:  the literal success banner, a SUPERCOMMAND state
confirmation, a schedule-frequency reply whose `data` decoded to a list,
or any other message type (all of which leave the state untouched). -/
inductive InMsg
  | banner
  | supercommand (m : SuperMsg)
  | workTimeFrequency (blocks : List WireBlock)
  | otherType
  deriving DecidableEq

/-- `_handle_message` dispatch (lines 397-538) restricted to its effect on
the device's state. -/
def handle_message (device_id : String) (m : InMsg) (now : ℚ)
    (st : DeviceState) : DeviceState :=
  match m with
  | InMsg.banner => st
  | InMsg.supercommand msg => handle_supercommand device_id msg now st
  | InMsg.workTimeFrequency blocks => handle_work_time_frequency blocks st
  | InMsg.otherType => st

/-! ## Re-poll (SUPERCOMMAND) monitor, `_supercommand_monitor` (lines 540-584) -/

/-- The three one-shot flags local to `_supercommand_monitor`. -/
structure MonFlags where
  sent_before_pause_ends : Bool
  sent_after_pause_starts : Bool
  sent_before_work_ends : Bool
  deriving DecidableEq

/-- Snapshot of the device-state fields read by one iteration of the
re-poll monitor (`state.get(...)` with defaults). -/
structure MonObs where
  waiting_for_response : Bool
  current_phase : Option Phase
  pause_remain : ℚ
  work_remain : ℚ
  pause_time : Int
  work_time : Int
  deriving DecidableEq

/-- The re-poll commands the monitor can emit in one iteration. -/
inductive Repoll
  | beforePauseEnds
  | afterPauseStarts
  | beforeWorkEnds
  deriving DecidableEq

/-- Flag-reset condition for the two pause flags (line 574):
`current_phase == "pause" and pause_remain > 1 and pause_remain < pause_time - 1`. -/
def pauseResetB (o : MonObs) : Bool :=
  decide (o.current_phase = some Phase.pause) &&
    decide (1 < o.pause_remain) && decide (o.pause_remain < (o.pause_time : ℚ) - 1)

/-- Flag-reset condition for the work flag (line 578). -/
def workResetB (o : MonObs) : Bool :=
  decide (o.current_phase = some Phase.work) &&
    decide (1 < o.work_remain) && decide (o.work_remain < (o.work_time : ℚ) - 1)

/-- One iteration of the `_supercommand_monitor` loop body (lines 546-581):
skipped entirely while `waiting_for_response`; otherwise the three guarded
sends (each setting its one-shot flag) followed by the flag resets.  The
resets run after the sends in the same iteration, exactly as in the
source, and each send fires only when its own flag is still clear. -/
def monTick (f : MonFlags) (o : MonObs) : MonFlags × List Repoll :=
  if o.waiting_for_response then (f, [])
  else
    let fire1 := decide (o.current_phase = some Phase.pause) &&
      decide (o.pause_remain = 1) && !f.sent_before_pause_ends
    let fire2 := decide (o.current_phase = some Phase.pause) &&
      decide (o.pause_remain = (o.pause_time : ℚ) - 1) && !f.sent_after_pause_starts
    let fire3 := decide (o.current_phase = some Phase.work) &&
      decide (o.work_remain = 1) && !f.sent_before_work_ends
    let pr := pauseResetB o
    let wr := workResetB o
    ({ sent_before_pause_ends := if pr then false else f.sent_before_pause_ends || fire1,
       sent_after_pause_starts := if pr then false else f.sent_after_pause_starts || fire2,
       sent_before_work_ends := if wr then false else f.sent_before_work_ends || fire3 },
     (if fire1 then [Repoll.beforePauseEnds] else []) ++
       (if fire2 then [Repoll.afterPauseStarts] else []) ++
       (if fire3 then [Repoll.beforeWorkEnds] else []))

/-- Iterated re-poll monitor over a trace of observed states, collecting
all emitted re-poll commands. -/
def monRun (f : MonFlags) : List MonObs → MonFlags × List Repoll
  | [] => (f, [])
  | o :: rest =>
    let t := monTick f o
    let r := monRun t.1 rest
    (r.1, t.2 ++ r.2)

/-! ## Countdown monitor, `_countdown_monitor` (lines 586-648) -/

/-- Python `int()` on a rational: truncation toward zero. -/
def pyInt (x : ℚ) : Int := if 0 ≤ x then ⌊x⌋ else ⌈x⌉

/-- Result of one iteration of the countdown monitor: the device state
after the tick (the monitor writes no authoritative field), the broadcast
`COUNTDOWN` payload, the new local `last_countdown_value`, and whether a
delayed re-poll was scheduled. -/
structure CountdownOut where
  state : DeviceState
  workStatusMsg : Int
  workRemainTimeMsg : Int
  pauseRemainTimeMsg : Int
  lastCountdown : Option Int
  schedulesRepoll : Bool
  deriving DecidableEq

/-- One iteration of `_countdown_monitor` (lines 590-645); `none` models
the `if not current_phase: continue` skip.  `lastCountdown = none` models
the initial `last_countdown_value = None`. -/
def countdown_tick (st : DeviceState) (now : ℚ) (lastCountdown : Option Int) :
    Option CountdownOut :=
  match st.current_phase with
  | none => none
  | some ph =>
    let elapsed := now - st.last_update_time
    let work_countdown : Int :=
      if ph = Phase.work then max 0 (pyInt (st.work_remain_time - elapsed))
      else st.work_time
    let pause_countdown : Int :=
      if ph = Phase.work then st.pause_time
      else max 0 (pyInt (st.pause_remain_time - elapsed))
    let active := if ph = Phase.work then work_countdown else pause_countdown
    some { state := st,
           workStatusMsg := if ph = Phase.work then 1 else 0,
           workRemainTimeMsg := work_countdown,
           pauseRemainTimeMsg := pause_countdown,
           lastCountdown := some active,
           schedulesRepoll := decide (active = 0) && !(lastCountdown == some 0) }

/-! ## Supervisor reconnect loop, `_websocket_handler` (lines 294-341) -/

/-- How one iteration of the supervisor's `while True` body ends.  The
body cannot fall through normally: after a successful
`websockets.connect` the inner `while True: await websocket.recv()` loop
terminates only by raising, so the trailing `backoff = 5` statement
(line 334) is unreachable and every iteration reaches the `except`
clause. -/
inductive WsOutcome
  | connectFail
  | recvFail
  deriving DecidableEq

/-- One iteration of `_websocket_handler`: returns the backoff slept this
iteration and the next backoff value, `min(backoff * 2, 300)` (lines
340-341).  Because the `backoff = 5` reset after the receive loop is
unreachable, the update is the same whether or not the connect
succeeded. -/
def ws_iter (backoff : Nat) (_o : WsOutcome) : Nat × Nat :=
  (backoff, min (backoff * 2) 300)

/-- The supervisor loop over a finite trace of iteration outcomes,
starting from the given backoff: the list of sleeps performed and the
final backoff.  The source starts with `backoff = 5` (line 296). -/
def ws_run (backoff : Nat) : List WsOutcome → List Nat × Nat
  | [] => ([], backoff)
  | o :: rest =>
    let t := ws_iter backoff o
    let r := ws_run t.2 rest
    (t.1 :: r.1, r.2)

/-! ## Client session maps and `start_websocket` (lines 285-292) -/

/-- Python dict lookup on an association list. -/
def dictGet {α : Type} : List (String × α) → String → Option α
  | [], _ => none
  | (k', v') :: rest, k => if k' = k then some v' else dictGet rest k

/-- Python dict assignment on an association list (update or insert). -/
def dictSet {α : Type} : List (String × α) → String → α → List (String × α)
  | [], k, v => [(k, v)]
  | (k', v') :: rest, k, v =>
    if k' = k then (k, v) :: rest else (k', v') :: dictSet rest k v

/-- The client-level mutable maps touched by `start_websocket`:
`ws_tasks` (device → supervisor task, tasks numbered by a spawn counter),
`_ws_connected`, and `_device_state`. -/
structure ClientState where
  ws_tasks : List (String × Nat)
  ws_connected : List (String × Bool)
  device_state : List (String × DeviceState)
  next_task_id : Nat
  deriving DecidableEq

/-- `_init_device_state` at the client level (lines 261-283): stores a
fresh `initDeviceState` only when the device has no state yet. -/
def init_device_state (c : ClientState) (device_id : String) (now : ℚ) :
    ClientState :=
  match dictGet c.device_state device_id with
  | some _ => c
  | none =>
    { c with device_state := dictSet c.device_state device_id (initDeviceState now) }

/-- `start_websocket` (lines 285-292): early return when the device is
already in `ws_tasks`; otherwise initialize state, mark disconnected and
spawn the supervisor task. -/
def start_websocket (c : ClientState) (device_id : String) (now : ℚ) :
    ClientState :=
  if (dictGet c.ws_tasks device_id).isSome then c
  else
    let c1 := init_device_state c device_id now
    let c2 := { c1 with ws_connected := dictSet c1.ws_connected device_id false }
    { c2 with ws_tasks := dictSet c2.ws_tasks device_id c2.next_task_id,
              next_task_id := c2.next_task_id + 1 }

/-! ## `set_schedule` (lines 167-259) -/

/-- A partial schedule-block descriptor passed by the caller; all keys
read with `.get` defaults are `Option`s, `enabled` is read with a
`False` default (`block.get("enabled", False)`). -/
structure SetBlock where
  start_time : Option String
  end_time : Option String
  work_duration : Option Int
  pause_duration : Option Int
  enabled : Bool
  days : Option (List Int)
  deriving DecidableEq

/-- One `workTimeList` entry of the posted payload; the durations are
stringified in the source (`str(...)`). -/
structure WireWorkTime where
  startTime : String
  endTime : String
  workDuration : String
  pauseDuration : String
  enabled : Int
  consistenceLevel : Int
  deriving DecidableEq

/-- The disabled filler entry (lines 225-232). -/
def fillerWorkTime : WireWorkTime :=
  { startTime := "00:00", endTime := "00:00",
    workDuration := "10", pauseDuration := "120",
    enabled := 0, consistenceLevel := 1 }

/-- The entry built for an enabled block (lines 213-220). -/
def enabledWorkTime (b : SetBlock) : WireWorkTime :=
  { startTime := b.start_time.getD "00:00",
    endTime := b.end_time.getD "00:00",
    workDuration := toString (b.work_duration.getD 10),
    pauseDuration := toString (b.pause_duration.getD 120),
    enabled := 1, consistenceLevel := 1 }

/-- Slot `i` of the payload (loop body, lines 210-232):
`i < len(schedule_blocks) and schedule_blocks[i].get("enabled", False)`
selects the enabled entry, otherwise the filler. -/
def slotEntry (bl : List SetBlock) (i : Nat) : WireWorkTime :=
  match bl.get? i with
  | some b => if b.enabled then enabledWorkTime b else fillerWorkTime
  | none => fillerWorkTime

/-- `workTimeList`: always exactly the 5 slots `i = 0..4` (line 210). -/
def buildWorkTimeList (bl : List SetBlock) : List WireWorkTime :=
  (List.range 5).map (slotEntry bl)

/-- `block.get("days", [0,1,2,3,4,5,6])` (line 222). -/
def blockDays (b : SetBlock) : List Int := b.days.getD [0, 1, 2, 3, 4, 5, 6]

/-- `active_days`: the set union of the `days` of the enabled blocks
among the first five (lines 208, 221-222). -/
def activeDays (bl : List SetBlock) : Finset Int :=
  (((bl.take 5).filter (fun b => b.enabled)).flatMap blockDays).toFinset

/-- `week_array = sorted(list(active_days)) if active_days else
[0,1,2,3,4,5,6]` (line 235). -/
def weekArray (bl : List SetBlock) : List Int :=
  if activeDays bl = ∅ then [0, 1, 2, 3, 4, 5, 6]
  else (activeDays bl).sort (· ≤ ·)

/-- The JSON body posted to `/v1/app/data/workSetApp` (lines 237-242),
without the constant `userId` field. -/
structure SchedulePayload where
  deviceId : String
  workTimeList : List WireWorkTime
  week : List Int
  deriving DecidableEq

/-- Python `x or d` on an optional integer (`work_duration or 10`,
line 196): `None` and `0` both fall back to the default. -/
def pyOr (o : Option Int) (d : Int) : Int :=
  match o with
  | some x => if x = 0 then d else x
  | none => d

/-- The single legacy block (lines 192-200). -/
def legacyBlocks (work_duration pause_duration : Option Int) : List SetBlock :=
  [{ start_time := some "00:00", end_time := some "23:59",
     work_duration := some (pyOr work_duration 10),
     pause_duration := some (pyOr pause_duration 120),
     enabled := true, days := some [0, 1, 2, 3, 4, 5, 6] }]

/-- Legacy-mode resolution (line 192): the legacy block list is built only
when `schedule_blocks is None` and at least one legacy duration is given. -/
def resolveScheduleBlocks (schedule_blocks : Option (List SetBlock))
    (work_duration pause_duration : Option Int) : Option (List SetBlock) :=
  if schedule_blocks = none ∧ (work_duration.isSome ∨ pause_duration.isSome) then
    some (legacyBlocks work_duration pause_duration)
  else schedule_blocks

/-- `set_schedule` (lines 167-259) as a function of its arguments and of
the HTTP status the POST would return.  It returns the (unchanged) client
state, the boolean result, and the payload posted (`none` when the guard
`if not schedule_blocks: return False` fires before any HTTP call).  The
source method never writes any client state on any path. -/
def set_schedule (c : ClientState) (device_id : String)
    (schedule_blocks : Option (List SetBlock))
    (work_duration pause_duration : Option Int) (httpStatus : Nat) :
    ClientState × Bool × Option SchedulePayload :=
  match resolveScheduleBlocks schedule_blocks work_duration pause_duration with
  | none => (c, false, none)
  | some [] => (c, false, none)
  | some bl =>
    let payload : SchedulePayload :=
      { deviceId := device_id,
        workTimeList := buildWorkTimeList bl,
        week := weekArray bl }
    (c, httpStatus == 200, some payload)

/-! ## `get_schedule` (lines 695-768) -/

/-- The filler block appended while padding in `get_schedule`
(lines 743-752): has a `days` key (empty) and a `consistency_level` key. -/
def getScheduleFiller : ScheduleBlock :=
  { start_time := "00:00", end_time := "00:00",
    work_duration := 10, pause_duration := 120,
    enabled := false, consistency_level := some 1,
    week_day := none, days := some [] }

/-- Day tagging (lines 754-757): blocks without a `days` key get
`[day_of_week]` when enabled, else `[]`. -/
def tagDays (day : Int) (b : ScheduleBlock) : ScheduleBlock :=
  match b.days with
  | some _ => b
  | none => { b with days := some (if b.enabled then [day] else []) }

/-- Padding to at least 5 blocks (lines 743-752). -/
def padTo5 (l : List ScheduleBlock) : List ScheduleBlock :=
  l ++ List.replicate (5 - l.length) getScheduleFiller

/-- The value returned on success: pad, keep the first five, tag days
(lines 743-761). -/
def finishSchedule (day : Int) (l : List ScheduleBlock) : List ScheduleBlock :=
  ((padTo5 l).take 5).map (tagDays day)

/-- The environment of the 5-second wait: `arrival = some (k, l)` means
the matching `WORK_TIME_FREQUENCY` reply lands via the WebSocket before
poll number `k` (0-based) and stores blocks `l`; `none` means no matching
reply ever lands. -/
def scheduleFetchedAt (arrival : Option (Nat × List ScheduleBlock)) (i : Nat) :
    Bool :=
  match arrival with
  | some (k, _) => k ≤ i
  | none => false

/-- The blocks stored by the reply, if any. -/
def arrivalBlocks (arrival : Option (Nat × List ScheduleBlock)) :
    List ScheduleBlock :=
  match arrival with
  | some (_, l) => l
  | none => []

/-- The polling loop of `get_schedule` (lines 736-764): poll index `i`
with remaining fuel; `for i in range(50)` gives initial fuel 50, and the
loop falls through to `return None` on timeout. -/
def waitLoop (arrival : Option (Nat × List ScheduleBlock)) (day : Int) :
    Nat → Nat → Option (List ScheduleBlock)
  | _, 0 => none
  | i, fuel + 1 =>
    if scheduleFetchedAt arrival i then
      some (finishSchedule day (arrivalBlocks arrival))
    else waitLoop arrival day (i + 1) fuel

/-- `get_schedule` (lines 695-768) as a function of the requested day, the
reply-arrival environment and the status of the HTTP trigger: `none` when
the trigger fails or the wait times out, otherwise the padded, day-tagged
5-block list.  (The source first clears `schedule_fetched` and
`schedule_blocks`; the cleared flag is what `scheduleFetchedAt` models.) -/
def get_schedule (arrival : Option (Nat × List ScheduleBlock)) (day : Int)
    (httpStatus : Nat) : Option (List ScheduleBlock) :=
  if httpStatus ≠ 200 then none
  else waitLoop arrival day 0 50

/-! ## Concrete fixtures used by witnesses and counterexamples -/

/-- A state confirmation matching the spec's end-to-end example:
`workStatus=1, workRemainTime=30, sendTime=10000, updateTime=9500`. -/
def msgW : SuperMsg :=
  { deviceId := "1", workRemainTime := some 30, pauseRemainTime := some 120,
    workTime := some 30, pauseTime := some 120, workStatus := some 1,
    updateTime := some 9500, sendTime := some 10000 }

/-- A state confirmation whose `updateTime` key is present but zero. -/
def msgCx1 : SuperMsg :=
  { deviceId := "1", workRemainTime := some 100, pauseRemainTime := some 0,
    workTime := some 30, pauseTime := some 120, workStatus := some 1,
    updateTime := some 0, sendTime := some 10000 }

/-- A state confirmation with no timestamps and a negative raw remaining
time. -/
def msgCx2 : SuperMsg :=
  { deviceId := "1", workRemainTime := some (-1), pauseRemainTime := some 3,
    workTime := some 30, pauseTime := some 120, workStatus := some 0,
    updateTime := none, sendTime := none }

/-- A state confirmation with no timestamps and nonnegative raw values. -/
def msgW2 : SuperMsg :=
  { deviceId := "1", workRemainTime := some 7, pauseRemainTime := some 11,
    workTime := some 30, pauseTime := some 120, workStatus := some 0,
    updateTime := none, sendTime := none }

/-! ## C1 -/

/-- C1 (amended): for an inbound SUPERCOMMAND state-confirmation whose
`deviceId` matches the session's device, whose `sendTime` and
`updateTime` are both present *and nonzero*, and whose network delay
`receive_ms - sendTime` lies in `[0, 5000]` ms, the handler stores
corrected remaining times
`max(0, raw - ((sendTime - updateTime) + network_delay) / 1000)` for both
remaining times, sets the phase to work iff `workStatus == 1`, and clears
`waiting_for_response`.  (The source tests the timestamps for Python
truthiness, so a present-but-zero timestamp takes the zero-correction
path; the claim as frozen, with mere presence, is refuted by
`C1_counterexample`.) -/
theorem C1_skew_correction (device_id : String) (msg : SuperMsg) (now : ℚ)
    (st : DeviceState) (s u : Int)
    (hdev : msg.deviceId = device_id)
    (hs : msg.sendTime = some s) (hu : msg.updateTime = some u)
    (hs0 : s ≠ 0) (hu0 : u ≠ 0)
    (hd0 : 0 ≤ now * 1000 - (s : ℚ)) (hd5 : now * 1000 - (s : ℚ) ≤ 5000) :
    (handle_message device_id (InMsg.supercommand msg) now st).work_remain_time
        = max 0 ((msg.workRemainTime.getD 0 : ℚ)
            - (((s : ℚ) - (u : ℚ)) + (now * 1000 - (s : ℚ))) / 1000)
    ∧ (handle_message device_id (InMsg.supercommand msg) now st).pause_remain_time
        = max 0 ((msg.pauseRemainTime.getD 0 : ℚ)
            - (((s : ℚ) - (u : ℚ)) + (now * 1000 - (s : ℚ))) / 1000)
    ∧ ((handle_message device_id (InMsg.supercommand msg) now st).current_phase
        = some Phase.work ↔ msg.workStatus = some 1)
    ∧ (handle_message device_id (InMsg.supercommand msg) now st).waiting_for_response
        = false := by
  have hneg : ¬ (now * 1000 - (s : ℚ) < 0) := not_lt.mpr hd0
  have hbig : ¬ ((5000 : ℚ) < now * 1000 - (s : ℚ)) := not_lt.mpr hd5
  have helapsed : totalElapsedSec msg.sendTime msg.updateTime (now * 1000)
      = (((s : ℚ) - (u : ℚ)) + (now * 1000 - (s : ℚ))) / 1000 := by
    rw [hs, hu]
    simp only [totalElapsedSec]
    rw [if_pos ⟨hs0, hu0⟩, if_neg hneg, if_neg hbig]
  refine ⟨?_, ?_, ?_, ?_⟩
  · simp [handle_message, handle_supercommand, hdev, helapsed]
  · simp [handle_message, handle_supercommand, hdev, helapsed]
  · simp only [handle_message, handle_supercommand, hdev, if_pos]
    by_cases hws : msg.workStatus = some 1
    · simp [hws]
    · simp [hws]
  · simp [handle_message, handle_supercommand, hdev]

/-- C1 witness: the corrected theorem applied at the spec's end-to-end
example (`sendTime=10000`, `updateTime=9500`, receive at 12000 ms):
stored work remaining `max(0, 30 - 2.5) = 27.5`. -/
theorem C1_skew_correction_witness :
    (handle_message "1" (InMsg.supercommand msgW) 12 (initDeviceState 0)).work_remain_time
      = max 0 ((30 : ℚ) - (((10000 : ℚ) - 9500) + ((12 : ℚ) * 1000 - 10000)) / 1000) :=
  (C1_skew_correction "1" msgW 12 (initDeviceState 0) 10000 9500 rfl rfl rfl
    (by norm_num) (by norm_num) (by norm_num) (by norm_num)).1

/-- C1 counterexample to the claim as frozen: `msgCx1` has both
timestamps present (`sendTime = 10000`, `updateTime = 0`) and a network
delay of 2000 ms for the matching device, so the claim demands the
corrected value `max(0, 100 - ((10000 - 0) + 2000)/1000) = 88`, but the
handler (treating the zero timestamp as falsy) stores the raw value
100. -/
theorem C1_counterexample :
    (handle_message "1" (InMsg.supercommand msgCx1) 12 (initDeviceState 0)).work_remain_time
        = 100
    ∧ ¬ ((100 : ℚ)
        = max 0 ((100 : ℚ) - (((10000 : ℚ) - 0) + ((12 : ℚ) * 1000 - 10000)) / 1000)) := by
  constructor
  · norm_num [handle_message, handle_supercommand, totalElapsedSec, msgCx1]
  · norm_num

/-! ## C2 -/

/-- C2 (amended): for a matching SUPERCOMMAND state-confirmation where a
timestamp is absent (or, like any falsy Python value, zero), or the
network delay is negative or exceeds 5000 ms, the stored remaining times
equal `max(0, raw)` — the raw values unmodified whenever they are
nonnegative.  (The unconditional clamp refutes the frozen claim's
"unmodified" for negative raw values: `C2_counterexample`.) -/
theorem C2_zero_correction (device_id : String) (msg : SuperMsg) (now : ℚ)
    (st : DeviceState)
    (hdev : msg.deviceId = device_id)
    (hzero : tsTruthy msg.sendTime = false ∨ tsTruthy msg.updateTime = false
      ∨ now * 1000 - ((msg.sendTime.getD 0 : Int) : ℚ) < 0
      ∨ 5000 < now * 1000 - ((msg.sendTime.getD 0 : Int) : ℚ)) :
    (handle_message device_id (InMsg.supercommand msg) now st).work_remain_time
        = max 0 ((msg.workRemainTime.getD 0 : Int) : ℚ)
    ∧ (handle_message device_id (InMsg.supercommand msg) now st).pause_remain_time
        = max 0 ((msg.pauseRemainTime.getD 0 : Int) : ℚ) := by
  have helapsed : totalElapsedSec msg.sendTime msg.updateTime (now * 1000) = 0 := by
    rcases hsend : msg.sendTime with _ | s
    · simp [totalElapsedSec]
    · rcases hupd : msg.updateTime with _ | u
      · simp [totalElapsedSec]
      · rw [hsend, hupd] at hzero
        simp only [totalElapsedSec]
        by_cases hne : s ≠ 0 ∧ u ≠ 0
        · rw [if_pos hne]
          have hdelay : now * 1000 - (s : ℚ) < 0 ∨ 5000 < now * 1000 - (s : ℚ) := by
            rcases hzero with h | h | h | h
            · exact absurd h (by simp [tsTruthy, hne.1])
            · exact absurd h (by simp [tsTruthy, hne.2])
            · exact Or.inl (by simpa using h)
            · exact Or.inr (by simpa using h)
          rcases hdelay with h | h
          · rw [if_pos h]
          · by_cases hlt : now * 1000 - (s : ℚ) < 0
            · rw [if_pos hlt]
            · rw [if_neg hlt, if_pos h]
        · rw [if_neg hne]
  constructor
  · simp [handle_message, handle_supercommand, hdev, helapsed]
  · simp [handle_message, handle_supercommand, hdev, helapsed]

/-- C2 witness: the corrected theorem applied at `msgW2` (no timestamps,
raw work remaining 7): the stored value is `max(0, 7) = 7`. -/
theorem C2_zero_correction_witness :
    (handle_message "1" (InMsg.supercommand msgW2) 0 (initDeviceState 0)).work_remain_time
      = max 0 ((7 : Int) : ℚ) :=
  (C2_zero_correction "1" msgW2 0 (initDeviceState 0) rfl (Or.inl rfl)).1

/-- C2 counterexample to the claim as frozen: `msgCx2` has both
timestamps absent and raw `workRemainTime = -1`; the claim says the
stored value equals the raw value unmodified, but the handler stores
`max(0, -1) = 0`. -/
theorem C2_counterexample :
    (handle_message "1" (InMsg.supercommand msgCx2) 0 (initDeviceState 0)).work_remain_time
      ≠ ((msgCx2.workRemainTime.getD 0 : Int) : ℚ) := by
  norm_num [handle_message, handle_supercommand, totalElapsedSec, msgCx2]

/-! ## C3: lemmas about the re-poll monitor -/

/-- Number of re-poll commands of a given kind in an emission list. -/
def countRepoll (r : Repoll) : List Repoll → Nat
  | [] => 0
  | x :: rest => (if x = r then 1 else 0) + countRepoll r rest

lemma countRepoll_append (r : Repoll) (l1 l2 : List Repoll) :
    countRepoll r (l1 ++ l2) = countRepoll r l1 + countRepoll r l2 := by
  induction l1 with
  | nil => simp [countRepoll]
  | cons x rest ih => simp [countRepoll, ih]; omega

lemma countRepoll_ite (r x : Repoll) (b : Bool) (h : x ≠ r) :
    countRepoll r (if b = true then [x] else []) = 0 := by
  cases b <;> simp [countRepoll, h]

lemma countRepoll_ite_self (r : Repoll) (b : Bool) :
    countRepoll r (if b = true then [r] else []) = if b = true then 1 else 0 := by
  cases b <;> simp [countRepoll]

lemma countRepoll_iteP (r x : Repoll) (p : Prop) [Decidable p] (h : x ≠ r) :
    countRepoll r (if p then [x] else []) = 0 := by
  split <;> simp [countRepoll, h]

lemma countRepoll_iteP_self (r : Repoll) (p : Prop) [Decidable p] :
    countRepoll r (if p then [r] else []) = if p then 1 else 0 := by
  split <;> simp [countRepoll]

lemma monTick_waiting (f : MonFlags) (o : MonObs)
    (h : o.waiting_for_response = true) : monTick f o = (f, []) := by
  simp [monTick, h]

lemma bpe_stable (f : MonFlags) (o : MonObs)
    (hf : f.sent_before_pause_ends = true) (hr : pauseResetB o = false) :
    (monTick f o).1.sent_before_pause_ends = true ∧
      countRepoll Repoll.beforePauseEnds (monTick f o).2 = 0 := by
  by_cases hw : o.waiting_for_response = true
  · simp [monTick, hw, hf, countRepoll]
  · simp [monTick, hw, hf, hr, countRepoll_append, countRepoll_ite, countRepoll_iteP, countRepoll]

lemma bpe_fire (f : MonFlags) (o : MonObs)
    (hf : f.sent_before_pause_ends = false) (hr : pauseResetB o = false) :
    (countRepoll Repoll.beforePauseEnds (monTick f o).2 = 0 ∧
      (monTick f o).1.sent_before_pause_ends = false) ∨
    (countRepoll Repoll.beforePauseEnds (monTick f o).2 = 1 ∧
      (monTick f o).1.sent_before_pause_ends = true) := by
  by_cases hw : o.waiting_for_response = true
  · left; simp [monTick, hw, hf, countRepoll]
  · by_cases hA : (decide (o.current_phase = some Phase.pause) &&
        decide (o.pause_remain = 1)) = true
    · right
      simp [monTick, hw, hf, hr, hA, countRepoll_append, countRepoll_ite, countRepoll_iteP,
        countRepoll_ite_self, countRepoll_iteP_self, countRepoll]
    · left
      simp only [Bool.not_eq_true] at hA
      simp [monTick, hw, hf, hr, hA, countRepoll_append, countRepoll_ite, countRepoll_iteP,
        countRepoll_ite_self]

lemma aps_stable (f : MonFlags) (o : MonObs)
    (hf : f.sent_after_pause_starts = true) (hr : pauseResetB o = false) :
    (monTick f o).1.sent_after_pause_starts = true ∧
      countRepoll Repoll.afterPauseStarts (monTick f o).2 = 0 := by
  by_cases hw : o.waiting_for_response = true
  · simp [monTick, hw, hf, countRepoll]
  · simp [monTick, hw, hf, hr, countRepoll_append, countRepoll_ite, countRepoll_iteP, countRepoll]

lemma aps_fire (f : MonFlags) (o : MonObs)
    (hf : f.sent_after_pause_starts = false) (hr : pauseResetB o = false) :
    (countRepoll Repoll.afterPauseStarts (monTick f o).2 = 0 ∧
      (monTick f o).1.sent_after_pause_starts = false) ∨
    (countRepoll Repoll.afterPauseStarts (monTick f o).2 = 1 ∧
      (monTick f o).1.sent_after_pause_starts = true) := by
  by_cases hw : o.waiting_for_response = true
  · left; simp [monTick, hw, hf, countRepoll]
  · by_cases hA : (decide (o.current_phase = some Phase.pause) &&
        decide (o.pause_remain = (o.pause_time : ℚ) - 1)) = true
    · right
      simp [monTick, hw, hf, hr, hA, countRepoll_append, countRepoll_ite, countRepoll_iteP,
        countRepoll_ite_self, countRepoll_iteP_self, countRepoll]
    · left
      simp only [Bool.not_eq_true] at hA
      simp [monTick, hw, hf, hr, hA, countRepoll_append, countRepoll_ite, countRepoll_iteP,
        countRepoll_ite_self]

lemma bwe_stable (f : MonFlags) (o : MonObs)
    (hf : f.sent_before_work_ends = true) (hr : workResetB o = false) :
    (monTick f o).1.sent_before_work_ends = true ∧
      countRepoll Repoll.beforeWorkEnds (monTick f o).2 = 0 := by
  by_cases hw : o.waiting_for_response = true
  · simp [monTick, hw, hf, countRepoll]
  · simp [monTick, hw, hf, hr, countRepoll_append, countRepoll_ite, countRepoll_iteP, countRepoll]

lemma bwe_fire (f : MonFlags) (o : MonObs)
    (hf : f.sent_before_work_ends = false) (hr : workResetB o = false) :
    (countRepoll Repoll.beforeWorkEnds (monTick f o).2 = 0 ∧
      (monTick f o).1.sent_before_work_ends = false) ∨
    (countRepoll Repoll.beforeWorkEnds (monTick f o).2 = 1 ∧
      (monTick f o).1.sent_before_work_ends = true) := by
  by_cases hw : o.waiting_for_response = true
  · left; simp [monTick, hw, hf, countRepoll]
  · by_cases hA : (decide (o.current_phase = some Phase.work) &&
        decide (o.work_remain = 1)) = true
    · right
      simp [monTick, hw, hf, hr, hA, countRepoll_append, countRepoll_ite, countRepoll_iteP,
        countRepoll_ite_self, countRepoll_iteP_self, countRepoll]
    · left
      simp only [Bool.not_eq_true] at hA
      simp [monTick, hw, hf, hr, hA, countRepoll_append, countRepoll_ite, countRepoll_iteP,
        countRepoll_ite_self]

/-- Generic: once the one-shot flag is set, a reset-free trace emits no
further command of that kind. -/
lemma monRun_zero_general (flag : MonFlags → Bool) (r : Repoll)
    (reset : MonObs → Bool)
    (hstable : ∀ f o, flag f = true → reset o = false →
      flag (monTick f o).1 = true ∧ countRepoll r (monTick f o).2 = 0) :
    ∀ (L : List MonObs) (f : MonFlags), flag f = true →
      (∀ o ∈ L, reset o = false) → countRepoll r (monRun f L).2 = 0 := by
  intro L
  induction L with
  | nil => intro f _ _; simp [monRun, countRepoll]
  | cons o rest ih =>
    intro f hf hall
    obtain ⟨h1, h2⟩ := hstable f o hf (hall o (List.mem_cons_self o rest))
    have := ih (monTick f o).1 h1 (fun o' ho' => hall o' (List.mem_cons_of_mem o ho'))
    simp [monRun, countRepoll_append, h2, this]

/-- Generic: over a reset-free trace each boundary emits at most one
command. -/
lemma monRun_le_one_general (flag : MonFlags → Bool) (r : Repoll)
    (reset : MonObs → Bool)
    (hstable : ∀ f o, flag f = true → reset o = false →
      flag (monTick f o).1 = true ∧ countRepoll r (monTick f o).2 = 0)
    (hfire : ∀ f o, flag f = false → reset o = false →
      (countRepoll r (monTick f o).2 = 0 ∧ flag (monTick f o).1 = false) ∨
      (countRepoll r (monTick f o).2 = 1 ∧ flag (monTick f o).1 = true)) :
    ∀ (L : List MonObs) (f : MonFlags), (∀ o ∈ L, reset o = false) →
      countRepoll r (monRun f L).2 ≤ 1 := by
  intro L
  induction L with
  | nil => intro f _; simp [monRun, countRepoll]
  | cons o rest ih =>
    intro f hall
    have hrest : ∀ o' ∈ rest, reset o' = false :=
      fun o' ho' => hall o' (List.mem_cons_of_mem o ho')
    by_cases hf : flag f = true
    · have := monRun_zero_general flag r reset hstable (o :: rest) f hf hall
      simp [this]
    · have hf' : flag f = false := by simpa using hf
      rcases hfire f o hf' (hall o (List.mem_cons_self o rest)) with ⟨h0, hkeep⟩ | ⟨h1, hset⟩
      · have := ih (monTick f o).1 hrest
        simp only [monRun, countRepoll_append]
        omega
      · have := monRun_zero_general flag r reset hstable rest (monTick f o).1 hset hrest
        simp only [monRun, countRepoll_append]
        omega

/-- C3 (confirmed): in the re-poll monitor, (a) no command is sent and no
flag changes while `waiting_for_response` is true; (b) each one-shot flag
is reset only when the respective countdown has re-entered the open
interval `(1, duration - 1)` (in the matching phase); (c) over any trace
in which the respective reset condition never holds — i.e. within one
boundary crossing — each of the three phase-boundary conditions triggers
at most one re-poll command. -/
theorem C3_repoll_one_shot :
    (∀ f o, o.waiting_for_response = true → monTick f o = (f, []))
  ∧ (∀ f o, f.sent_before_pause_ends = true →
        (monTick f o).1.sent_before_pause_ends = false → pauseResetB o = true)
  ∧ (∀ f o, f.sent_after_pause_starts = true →
        (monTick f o).1.sent_after_pause_starts = false → pauseResetB o = true)
  ∧ (∀ f o, f.sent_before_work_ends = true →
        (monTick f o).1.sent_before_work_ends = false → workResetB o = true)
  ∧ (∀ f L, (∀ o ∈ L, pauseResetB o = false) →
        countRepoll Repoll.beforePauseEnds (monRun f L).2 ≤ 1)
  ∧ (∀ f L, (∀ o ∈ L, pauseResetB o = false) →
        countRepoll Repoll.afterPauseStarts (monRun f L).2 ≤ 1)
  ∧ (∀ f L, (∀ o ∈ L, workResetB o = false) →
        countRepoll Repoll.beforeWorkEnds (monRun f L).2 ≤ 1) := by
  refine ⟨monTick_waiting, ?_, ?_, ?_, ?_, ?_, ?_⟩
  · intro f o hf h'
    by_cases hr : pauseResetB o = true
    · exact hr
    · have := (bpe_stable f o hf (by simpa using hr)).1
      rw [this] at h'
      exact absurd h' (by simp)
  · intro f o hf h'
    by_cases hr : pauseResetB o = true
    · exact hr
    · have := (aps_stable f o hf (by simpa using hr)).1
      rw [this] at h'
      exact absurd h' (by simp)
  · intro f o hf h'
    by_cases hr : workResetB o = true
    · exact hr
    · have := (bwe_stable f o hf (by simpa using hr)).1
      rw [this] at h'
      exact absurd h' (by simp)
  · intro f L hall
    exact monRun_le_one_general (fun g => g.sent_before_pause_ends)
      Repoll.beforePauseEnds pauseResetB bpe_stable bpe_fire L f hall
  · intro f L hall
    exact monRun_le_one_general (fun g => g.sent_after_pause_starts)
      Repoll.afterPauseStarts pauseResetB aps_stable aps_fire L f hall
  · intro f L hall
    exact monRun_le_one_general (fun g => g.sent_before_work_ends)
      Repoll.beforeWorkEnds workResetB bwe_stable bwe_fire L f hall

/-- All one-shot flags clear (monitor start, line 542-544). -/
def flags0 : MonFlags :=
  { sent_before_pause_ends := false, sent_after_pause_starts := false,
    sent_before_work_ends := false }

/-- A boundary observation with a pending command outstanding. -/
def obsWaiting : MonObs :=
  { waiting_for_response := true, current_phase := some Phase.pause,
    pause_remain := 1, work_remain := 0, pause_time := 120, work_time := 30 }

/-- The pause-about-to-end boundary observation. -/
def obsBoundary : MonObs :=
  { waiting_for_response := false, current_phase := some Phase.pause,
    pause_remain := 1, work_remain := 0, pause_time := 120, work_time := 30 }

/-- C3 witness: while waiting, a tick at the boundary emits nothing; a
reset-free two-tick trace sitting on the `pause_remain == 1` boundary
emits at most one `beforePauseEnds` command. -/
theorem C3_repoll_one_shot_witness :
    monTick flags0 obsWaiting = (flags0, [])
    ∧ countRepoll Repoll.beforePauseEnds (monRun flags0 [obsBoundary, obsBoundary]).2 ≤ 1 :=
  ⟨C3_repoll_one_shot.1 flags0 obsWaiting rfl,
   C3_repoll_one_shot.2.2.2.2.1 flags0 [obsBoundary, obsBoundary] (by decide)⟩

/-! ## C4 -/

lemma max_zero_pyInt (x : ℚ) : max 0 (pyInt x) = max 0 ⌊x⌋ := by
  unfold pyInt
  split
  · rfl
  · rename_i h
    push_neg at h
    have h1 : ⌈x⌉ ≤ 0 := by
      rw [Int.ceil_le]
      exact_mod_cast h.le
    have h2 : ⌊x⌋ ≤ 0 := le_trans (Int.floor_le_ceil x) h1
    rw [max_eq_left h1, max_eq_left h2]

/-- The post-tick device state, if the tick ran. -/
def cdStateOf (x : Option CountdownOut) : Option DeviceState :=
  x.map fun o => o.state

/-- The `workRemainTime` field of the broadcast message, if a tick ran. -/
def cdWorkMsg (x : Option CountdownOut) : Option Int :=
  x.map fun o => o.workRemainTimeMsg

/-- The `pauseRemainTime` field of the broadcast message, if a tick ran. -/
def cdPauseMsg (x : Option CountdownOut) : Option Int :=
  x.map fun o => o.pauseRemainTimeMsg

/-- C4 (amended): on a countdown-monitor tick with a known phase, the
broadcast `COUNTDOWN` display value for the active phase equals
`max(0, ⌊last trusted remaining - wall-clock elapsed since last update⌋)`
— the source truncates the display to whole seconds with `int()` — while
the inactive phase's display equals its full configured duration, and the
authoritative device state is not mutated.  (The frozen claim's formula
without the truncation is refuted by `C4_counterexample`.) -/
theorem C4_countdown_display (st : DeviceState) (now : ℚ) (lc : Option Int)
    (ph : Phase) (hph : st.current_phase = some ph) :
    (countdown_tick st now lc).isSome = true
    ∧ cdStateOf (countdown_tick st now lc) = some st
    ∧ (ph = Phase.work →
        cdWorkMsg (countdown_tick st now lc)
            = some (max 0 ⌊st.work_remain_time - (now - st.last_update_time)⌋)
          ∧ cdPauseMsg (countdown_tick st now lc) = some st.pause_time)
    ∧ (ph = Phase.pause →
        cdPauseMsg (countdown_tick st now lc)
            = some (max 0 ⌊st.pause_remain_time - (now - st.last_update_time)⌋)
          ∧ cdWorkMsg (countdown_tick st now lc) = some st.work_time) := by
  cases ph with
  | work =>
    refine ⟨?_, ?_, ?_, ?_⟩
    · simp [countdown_tick, hph]
    · simp [cdStateOf, countdown_tick, hph]
    · intro _
      constructor
      · simp [cdWorkMsg, countdown_tick, hph, max_zero_pyInt]
      · simp [cdPauseMsg, countdown_tick, hph]
    · intro h
      cases h
  | pause =>
    refine ⟨?_, ?_, ?_, ?_⟩
    · simp [countdown_tick, hph]
    · simp [cdStateOf, countdown_tick, hph]
    · intro h
      cases h
    · intro _
      constructor
      · simp [cdPauseMsg, countdown_tick, hph, max_zero_pyInt]
      · simp [cdWorkMsg, countdown_tick, hph]

/-- A device state mid-work-phase: `work_remain_time = 10`, last update
at 0. -/
def stCx4 : DeviceState :=
  { (initDeviceState 0) with
    current_phase := some Phase.work
    work_remain_time := 10
    work_time := 30
    pause_time := 120 }

/-- C4 witness: the amended theorem applied at `stCx4` in the work
phase. -/
theorem C4_countdown_display_witness :
    (countdown_tick stCx4 1 none).isSome = true
    ∧ cdStateOf (countdown_tick stCx4 1 none) = some stCx4
    ∧ (Phase.work = Phase.work →
        cdWorkMsg (countdown_tick stCx4 1 none)
            = some (max 0 ⌊stCx4.work_remain_time - ((1 : ℚ) - stCx4.last_update_time)⌋)
          ∧ cdPauseMsg (countdown_tick stCx4 1 none) = some stCx4.pause_time)
    ∧ (Phase.work = Phase.pause →
        cdPauseMsg (countdown_tick stCx4 1 none)
            = some (max 0 ⌊stCx4.pause_remain_time - ((1 : ℚ) - stCx4.last_update_time)⌋)
          ∧ cdWorkMsg (countdown_tick stCx4 1 none) = some stCx4.work_time) :=
  C4_countdown_display stCx4 1 none Phase.work rfl

/-- C4 counterexample to the claim as frozen: in `stCx4` at wall-clock
time 0.5 s, the code broadcasts `int(10 - 0.5)` clamped, i.e. `9`, while
the claim's formula `max(0, 10 - 0.5)` gives `9.5`. -/
theorem C4_counterexample :
    cdWorkMsg (countdown_tick stCx4 (1 / 2) none) = some 9
    ∧ ¬ (((9 : ℚ))
        = max 0 (stCx4.work_remain_time - ((1 / 2 : ℚ) - stCx4.last_update_time))) := by
  constructor
  · norm_num [cdWorkMsg, countdown_tick, stCx4, initDeviceState, pyInt]
  · norm_num [stCx4, initDeviceState]

/-! ## C5 -/

/-- C5 (amended): `schedule_blocks` is exactly 5 slots only at state
initialization, where every slot is the disabled default filler
(`00:00`-`00:00`, work=10s, pause=120s); the schedule-frequency reply
handler replaces the list wholesale with the parsed reply, whose length
equals the reply's length and need not be 5.  (The frozen claim's
"always exactly 5 under every mutation path" is refuted by
`C5_counterexample`: a 1-block reply leaves a 1-block list.) -/
theorem C5_schedule_blocks (now : ℚ) (blocks : List WireBlock) (st : DeviceState) :
    (initDeviceState now).schedule_blocks = List.replicate 5 initBlock
    ∧ (initDeviceState now).schedule_blocks.length = 5
    ∧ (handle_work_time_frequency blocks st).schedule_blocks
        = blocks.map parseWireBlock
    ∧ (handle_work_time_frequency blocks st).schedule_blocks.length
        = blocks.length := by
  exact ⟨rfl, rfl, rfl, by simp [handle_work_time_frequency]⟩

/-- An enabled wire block as sent by the server. -/
def wb0 : WireBlock :=
  { startHour := some "07:30", endHour := some "21:30", workSec := some 10,
    pauseSec := some 300, enabled := some 1, consistenceLevel := some 1,
    weekDay := some 2 }

/-- C5 counterexample to the claim as frozen: after a 1-block
`WORK_TIME_FREQUENCY` reply the stored `schedule_blocks` has length 1,
not 5. -/
theorem C5_counterexample :
    ((handle_work_time_frequency [wb0] (initDeviceState 0)).schedule_blocks).length
      ≠ 5 := by
  simp [handle_work_time_frequency]

/-! ## C6 -/

lemma waitLoop_none (arrival : Option (Nat × List ScheduleBlock)) (day : Int) :
    ∀ (fuel i : Nat),
      (∀ j, i ≤ j → j < i + fuel → scheduleFetchedAt arrival j = false) →
      waitLoop arrival day i fuel = none := by
  intro fuel
  induction fuel with
  | zero => intro i _; rfl
  | succ n ih =>
    intro i hall
    have h0 : scheduleFetchedAt arrival i = false := hall i le_rfl (by omega)
    rw [waitLoop, if_neg (by simp [h0])]
    exact ih (i + 1) (fun j hj1 hj2 => hall j (by omega) (by omega))

lemma waitLoop_some (k : Nat) (l : List ScheduleBlock) (day : Int) :
    ∀ (fuel i : Nat), i ≤ k → k < i + fuel →
      waitLoop (some (k, l)) day i fuel = some (finishSchedule day l) := by
  intro fuel
  induction fuel with
  | zero => intro i h1 h2; omega
  | succ n ih =>
    intro i h1 h2
    by_cases hk : k ≤ i
    · rw [waitLoop, if_pos (by simp [scheduleFetchedAt, hk])]
      rfl
    · rw [waitLoop, if_neg (by simp [scheduleFetchedAt]; omega)]
      exact ih (i + 1) (by omega) (by omega)

lemma finishSchedule_length (day : Int) (l : List ScheduleBlock) :
    (finishSchedule day l).length = 5 := by
  simp [finishSchedule, padTo5]
  omega

lemma finishSchedule_days_present (day : Int) (l : List ScheduleBlock) :
    ∀ b ∈ finishSchedule day l, (b.days).isSome = true := by
  intro b hb
  simp only [finishSchedule, List.mem_map] at hb
  obtain ⟨a, _, rfl⟩ := hb
  rcases hd : a.days with _ | d <;> simp [tagDays, hd]

lemma finishSchedule_filler (day : Int) (l : List ScheduleBlock) (j : Nat)
    (h1 : l.length ≤ j) (h2 : j < 5) :
    (finishSchedule day l).getD j initBlock = getScheduleFiller := by
  have hget : (padTo5 l)[j]? = some getScheduleFiller := by
    rw [padTo5, List.getElem?_append_right h1]
    simp [List.getElem?_replicate]
    omega
  simp [finishSchedule, List.getD, List.getElem?_take, h2, hget, tagDays,
    getScheduleFiller]

lemma finishSchedule_tag (day : Int) (l : List ScheduleBlock) (j : Nat)
    (h1 : j < l.length) (h2 : j < 5) :
    (finishSchedule day l).getD j initBlock = tagDays day (l.getD j initBlock) := by
  have hget : (padTo5 l)[j]? = l[j]? := by
    rw [padTo5, List.getElem?_append_left h1]
  simp [finishSchedule, List.getD, List.getElem?_take, h2, hget,
    List.getElem?_eq_getElem h1]

/-- C6 (confirmed): `get_schedule` returns `none` when no matching
schedule-frequency reply lands during the 50 polls of the 5-second window
after a successful HTTP trigger; and when the reply lands before poll
`k < 50` it returns exactly 5 blocks — the stored blocks (day-tagged when
their `days` key is absent) padded with default-filler disabled
blocks. -/
theorem C6_get_schedule (day : Int) (arrival : Option (Nat × List ScheduleBlock)) :
    ((∀ i, i < 50 → scheduleFetchedAt arrival i = false) →
        get_schedule arrival day 200 = none)
    ∧ (∀ k l, arrival = some (k, l) → k < 50 →
        get_schedule arrival day 200 = some (finishSchedule day l)
        ∧ (finishSchedule day l).length = 5
        ∧ (∀ b ∈ finishSchedule day l, (b.days).isSome = true)
        ∧ (∀ j, l.length ≤ j → j < 5 →
            (finishSchedule day l).getD j initBlock = getScheduleFiller)
        ∧ (∀ j, j < l.length → j < 5 →
            (finishSchedule day l).getD j initBlock
              = tagDays day (l.getD j initBlock))) := by
  constructor
  · intro hall
    rw [get_schedule, if_neg (by norm_num)]
    exact waitLoop_none arrival day 50 0 (fun j _ h2 => hall j (by omega))
  · rintro k l rfl hk
    refine ⟨?_, finishSchedule_length day l, finishSchedule_days_present day l,
      fun j h1 h2 => finishSchedule_filler day l j h1 h2,
      fun j h1 h2 => finishSchedule_tag day l j h1 h2⟩
    rw [get_schedule, if_neg (by norm_num)]
    exact waitLoop_some k l day 50 0 (Nat.zero_le k) (by omega)

/-- C6 witness: the theorem applied with no reply (timeout gives `none`)
and with a reply landing before poll 3 (returns the padded 5 blocks). -/
theorem C6_get_schedule_witness :
    get_schedule none 2 200 = none
    ∧ get_schedule (some (3, [initBlock])) 2 200
        = some (finishSchedule 2 [initBlock]) :=
  ⟨(C6_get_schedule 2 none).1 (fun _ _ => rfl),
   ((C6_get_schedule 2 (some (3, [initBlock]))).2 3 [initBlock] rfl
     (by norm_num)).1⟩

/-! ## C7 -/

/-- C7 (code bug): the spec and the source's own comment
(`backoff = 5  # Reset on success`, line 334) say the backoff is reset to
its 5-second floor on every successful opening of the connection, but
that statement is unreachable: the receive loop terminates only by
raising, so every iteration reaches the `except` clause and doubles the
backoff.  Two iterations that each connect successfully and then fail in
the receive loop sleep `[5, 10]`, not the `[5, 5]` the claim requires
(the doubling-capped-at-300 half of the claim does hold, by
construction of `ws_iter`). -/
theorem C7_backoff_never_reset :
    ws_run 5 [WsOutcome.recvFail, WsOutcome.recvFail] = ([5, 10], 20)
    ∧ ([5, 10] : List Nat) ≠ [5, 5] := by
  constructor
  · rfl
  · simp

/-! ## C9 -/

lemma dictGet_dictSet {α : Type} (l : List (String × α)) (k : String) (v : α) :
    dictGet (dictSet l k v) k = some v := by
  induction l with
  | nil => simp [dictGet, dictSet]
  | cons p rest ih =>
    obtain ⟨k0, v0⟩ := p
    by_cases h : k0 = k
    · simp [dictSet, dictGet, h]
    · simp [dictSet, dictGet, h, ih]

lemma init_device_state_ws_tasks (c : ClientState) (d : String) (now : ℚ) :
    (init_device_state c d now).ws_tasks = c.ws_tasks := by
  rw [init_device_state]
  cases dictGet c.device_state d <;> rfl

/-- C9 (confirmed): `start_websocket` returns immediately, changing
nothing, when the device already has a supervisor task; hence calling it
twice equals calling it once (no second task is spawned, and the session
maps and the device's state are unchanged by the second call). -/
theorem C9_start_websocket_idempotent :
    (∀ (c : ClientState) (d : String) (now : ℚ),
        (dictGet c.ws_tasks d).isSome = true → start_websocket c d now = c)
    ∧ (∀ (c : ClientState) (d : String) (n n' : ℚ),
        start_websocket (start_websocket c d n) d n' = start_websocket c d n) := by
  have base : ∀ (c : ClientState) (d : String) (now : ℚ),
      (dictGet c.ws_tasks d).isSome = true → start_websocket c d now = c := by
    intro c d now h
    rw [start_websocket, if_pos h]
  refine ⟨base, ?_⟩
  intro c d n n'
  by_cases h : (dictGet c.ws_tasks d).isSome = true
  · rw [base c d n h, base c d n' h]
  · have h2 : (dictGet (start_websocket c d n).ws_tasks d).isSome = true := by
      rw [start_websocket, if_neg h]
      simp [init_device_state_ws_tasks, dictGet_dictSet]
    exact base _ d n' h2

/-- A client with a supervisor task already registered for device 1. -/
def client0 : ClientState :=
  { ws_tasks := [("1", 0)], ws_connected := [("1", false)],
    device_state := [("1", initDeviceState 0)], next_task_id := 1 }

/-- C9 witness: a second `start_websocket` for device 1 leaves `client0`
unchanged. -/
theorem C9_start_websocket_idempotent_witness :
    start_websocket client0 "1" 0 = client0 :=
  C9_start_websocket_idempotent.1 client0 "1" 0 rfl

/-! ## C10 -/

/-- C10 (confirmed): `set_schedule` called with `schedule_blocks` absent
or empty and no legacy duration returns `False` before building any
payload or issuing any HTTP request, and changes no client state. -/
theorem C10_set_schedule_no_blocks (c : ClientState) (device_id : String)
    (status : Nat) :
    set_schedule c device_id none none none status = (c, false, none)
    ∧ set_schedule c device_id (some []) none none status = (c, false, none) := by
  constructor <;> rfl

/-! ## C8 -/

lemma buildWorkTimeList_length (bl : List SetBlock) :
    (buildWorkTimeList bl).length = 5 := by
  simp [buildWorkTimeList]

lemma buildWorkTimeList_get (bl : List SetBlock) (i : Nat) (h : i < 5) :
    (buildWorkTimeList bl)[i]? = some (slotEntry bl i) := by
  simp [buildWorkTimeList, List.getElem?_range, h]

lemma weekArray_toFinset (bl : List SetBlock) :
    (weekArray bl).toFinset
      = if activeDays bl = ∅ then ({0, 1, 2, 3, 4, 5, 6} : Finset Int)
        else activeDays bl := by
  rw [weekArray]
  split
  · simp
  · exact Finset.sort_toFinset _ _

/-- C8 (confirmed): for `set_schedule` with 1-5 partial block
descriptors, the posted payload's `workTimeList` has exactly 5 entries;
every slot not provided, or provided but disabled, is the filler entry
with `enabled = 0`; the `week` field equals (as a set) the union of the
`days` of all enabled slots, defaulting to all 7 days when no enabled
slot contributes a day; and the returned boolean is exactly
`HTTP status == 200`. -/
theorem C8_set_schedule_payload (c : ClientState) (device_id : String)
    (bl : List SetBlock) (status : Nat)
    (h1 : 1 ≤ bl.length) (h5 : bl.length ≤ 5) :
    ∃ payload,
      (set_schedule c device_id (some bl) none none status).2.2 = some payload
      ∧ payload.workTimeList.length = 5
      ∧ (∀ i, i < 5 →
          (bl[i]? = none ∨ (∃ b, bl[i]? = some b ∧ b.enabled = false)) →
          (payload.workTimeList)[i]? = some fillerWorkTime)
      ∧ payload.week.toFinset
          = (if activeDays bl = ∅ then ({0, 1, 2, 3, 4, 5, 6} : Finset Int)
             else activeDays bl)
      ∧ ((set_schedule c device_id (some bl) none none status).2.1 = true
          ↔ status = 200) := by
  obtain ⟨b0, bl', rfl⟩ : ∃ b0 bl', bl = b0 :: bl' := by
    cases bl with
    | nil => simp at h1
    | cons a t => exact ⟨a, t, rfl⟩
  have hred : set_schedule c device_id (some (b0 :: bl')) none none status
      = (c, status == 200,
         some { deviceId := device_id,
                workTimeList := buildWorkTimeList (b0 :: bl'),
                week := weekArray (b0 :: bl') }) := rfl
  refine ⟨_, by rw [hred], ?_, ?_, ?_, ?_⟩
  · exact buildWorkTimeList_length _
  · intro i hi hcase
    rw [buildWorkTimeList_get _ i hi]
    rcases hcase with hnone | ⟨b, hsome, henb⟩
    · simp [slotEntry, hnone]
    · simp [slotEntry, hsome, henb]
  · exact weekArray_toFinset _
  · rw [hred]
    simp

/-- The spec's example input: a single enabled block on days 1 and 3. -/
def blW : List SetBlock :=
  [{ start_time := some "08:00", end_time := some "20:00",
     work_duration := some 15, pause_duration := some 300,
     enabled := true, days := some [1, 3] }]

/-- C8 witness: the theorem applied at the spec's single-enabled-block
example with HTTP status 200. -/
theorem C8_set_schedule_payload_witness :
    ∃ payload,
      (set_schedule client0 "1" (some blW) none none 200).2.2 = some payload
      ∧ payload.workTimeList.length = 5
      ∧ (∀ i, i < 5 →
          (blW[i]? = none ∨ (∃ b, blW[i]? = some b ∧ b.enabled = false)) →
          (payload.workTimeList)[i]? = some fillerWorkTime)
      ∧ payload.week.toFinset
          = (if activeDays blW = ∅ then ({0, 1, 2, 3, 4, 5, 6} : Finset Int)
             else activeDays blW)
      ∧ ((set_schedule client0 "1" (some blW) none none 200).2.1 = true
          ↔ (200 : Nat) = 200) :=
  C8_set_schedule_payload client0 "1" blW 200 (by norm_num [blW]) (by norm_num [blW])

end AromaLink
